import Mathlib

/-!
Shallow embedding of the authentication view layer of ComradeMarketPlace
(src/back-end/accounts/views.py, class AuthViewSet) together with the
collaborators it drives: the simplejwt bearer-token codec and blacklist
(the spec's Token Codec and Revocation Ledger), the one-time token models
EmailVerificationToken / PasswordResetToken, and the credential hasher.
Only views.py is in the repository snapshot; the collaborators are
modelled from the spec where noted.

Time is measured in whole minutes; `timedelta(hours=24)` is `otpTtl = 1440`.
Each endpoint is a function from its request data, the current time and the
shared storage state to a response outcome and an updated state, mirroring
the Django request-per-call model.
-/

namespace CMP

/-- Bearer token kind: simplejwt access or refresh. -/
inductive TokenKind where
  | access
  | refresh
deriving DecidableEq, Repr

/-- Modelled from the spec: a decoded bearer credential of the Token Codec
(rest_framework_simplejwt, outside src/): subject identity, unique token
identifier (jti) and expiry (spec section 4.1). -/
structure BearerToken where
  jti : Nat
  subject : Nat
  kind : TokenKind
  expiry : Nat
deriving DecidableEq, Repr

/-- A token string presented on the wire: either it fails signature or
structural verification (MalformedToken) or it decodes to a bearer token. -/
inductive Wire where
  | malformed
  | tok (t : BearerToken)
deriving DecidableEq, Repr

/-- A user account row: id, unique email, password hash and the
`is_verified` flag (accounts.models, outside src/; fields as used by
views.py and spec section 3). -/
structure Account where
  id : Nat
  email : String
  passwordHash : String
  is_verified : Bool
deriving DecidableEq, Repr

/-- A one-time token row (EmailVerificationToken / PasswordResetToken,
accounts.models outside src/): token string, owning user id and creation
time, exactly the fields views.py reads. -/
structure OneTimeToken where
  token : String
  userId : Nat
  createdAt : Nat
deriving DecidableEq, Repr

/-- The shared storage state: account table, the two one-time token tables,
and the simplejwt outstanding / blacklisted jti ledgers (spec section 4.2).
`nextJti` and `nextNonce` make token-identifier and one-time-token
generation deterministic; `nextUid` allocates account ids. -/
structure St where
  accounts : List Account
  emailTokens : List OneTimeToken
  resetTokens : List OneTimeToken
  outstanding : List Nat
  blacklisted : List Nat
  nextJti : Nat
  nextNonce : Nat
  nextUid : Nat
deriving DecidableEq, Repr

/-- 24 hours in minutes: the `timedelta(hours=24)` one-time token window
(views.py lines 190 and 451). -/
def otpTtl : Nat := 1440

/-- Modelled from the spec: refresh-token lifetime, "long-lived, ~days"
(simplejwt settings, outside src/). The concrete value is a policy
constant; no claim depends on it. -/
def refreshTtl : Nat := 1440

/-- Modelled from the spec: access-token lifetime, "short-lived, ~minutes"
(simplejwt settings, outside src/). -/
def accessTtl : Nat := 5

/-- Modelled from the spec: `RefreshToken.for_user` of the Token Codec
mints a refresh token with a fresh unique identifier for the subject and
records it as outstanding in the Revocation Ledger (spec sections 4.1,
4.2: `issue` and `record`). -/
def forUser (uid now : Nat) (st : St) : BearerToken × St :=
  (⟨st.nextJti, uid, .refresh, now + refreshTtl⟩,
   { st with nextJti := st.nextJti + 1,
             outstanding := st.nextJti :: st.outstanding })

/-- Modelled from the spec: `refresh.access_token` derives a fresh access
token for the same subject (spec section 4.1, deriveAccessFromRefresh). -/
def accessFromRefresh (r : BearerToken) (now : Nat) (st : St) :
    BearerToken × St :=
  (⟨st.nextJti, r.subject, .access, now + accessTtl⟩,
   { st with nextJti := st.nextJti + 1 })

/-- Modelled from the spec: validation performed by the `RefreshToken(str)`
constructor — signature/structure, kind, expiry, and the Revocation Ledger
blacklist check (`isBlacklisted` is "queried by every credential-validating
operation", spec section 4.2). Returns none exactly when a TokenError is
raised. -/
def checkRefresh (w : Wire) (now : Nat) (st : St) : Option BearerToken :=
  match w with
  | .malformed => none
  | .tok t =>
    if t.kind = .refresh ∧ now < t.expiry ∧ ¬ t.jti ∈ st.blacklisted then
      some t
    else
      none

/-- Modelled from the spec: validation performed by the `AccessToken(str)`
constructor — signature/structure, kind and expiry. Access tokens carry no
blacklist mixin, so no ledger query happens here. -/
def checkAccess (w : Wire) (now : Nat) : Option BearerToken :=
  match w with
  | .malformed => none
  | .tok t =>
    if t.kind = .access ∧ now < t.expiry then some t else none

/-- Blacklist a token identifier in the Revocation Ledger (`blacklist`,
spec section 4.2): insertion only, nothing is ever removed. -/
def blacklistJti (j : Nat) (st : St) : St :=
  { st with blacklisted := j :: st.blacklisted }

/-- Modelled from the spec: the external Credential Hasher's one-way hash.
Claims never depend on the hash function itself, only on hash-then-store. -/
def hashPw (p : String) : String := "#" ++ p

/-- Modelled from the spec: the Credential Hasher's verify capability. -/
def verifyPw (p h : String) : Bool := hashPw p == h

/-- Modelled from the spec:
`token_generator_and_check_if_exists` (accounts/utils.py, outside src/)
returns a fresh one-time token string; freshness is modelled with the
state's nonce counter. -/
def genOtp (n : Nat) : String := "otp" ++ toString n

/-- Result of a Django `Model.objects.get(...)` call: the unique matching
row, DoesNotExist, or MultipleObjectsReturned. -/
inductive GetResult where
  | found (t : OneTimeToken)
  | notFound
  | multiple
deriving DecidableEq, Repr

/-- Embeds `objects.get` over a one-time token table. -/
def getToken (l : List OneTimeToken) (p : OneTimeToken → Bool) : GetResult :=
  match l.filter p with
  | [] => .notFound
  | [t] => .found t
  | _ => .multiple

/-- Response payload as views.py builds it: HTTP status, the error_code of
the error envelope (none on success), and the data fields a success
envelope may carry (refresh / access tokens, user email, one-time token). -/
structure Resp where
  httpStatus : Nat
  errorCode : Option String
  refreshTok : Option BearerToken
  accessTok : Option BearerToken
  userEmail : Option String
  otpToken : Option String
deriving DecidableEq, Repr

/-- An error response built by handle_exception_response: an error_code and
no data fields. -/
def errorResp (s : Nat) (code : String) : Resp :=
  ⟨s, some code, none, none, none, none⟩

/-- A success / no-content response carrying no data fields. -/
def emptyResp (s : Nat) : Resp :=
  ⟨s, none, none, none, none, none⟩

/-- Outcome of a request: a response, or an exception that escapes the view
unhandled (reaches the framework as a server error). -/
inductive Outcome where
  | ok (r : Resp)
  | unhandled (exn : String)
deriving DecidableEq, Repr

/-- Modelled from the spec: credential validation done by
AuthUserSerializer (accounts/serializers.py, outside src/) — find the
account whose email matches and whose stored hash verifies against the
supplied password; `serializer.validated_data` is that account. -/
def findByCreds (email pw : String) (st : St) : Option Account :=
  st.accounts.find? (fun a => a.email == email && verifyPw pw a.passwordHash)

/-- AuthViewSet.login (views.py lines 79-109). Note the source order: the
refresh token is minted by `RefreshToken.for_user` on line 85, before the
`is_verified` check on line 86; the NOT_VERIFIED error response carries no
tokens, and the access token is derived only in the success return on
line 108. -/
def login_authenticated (user : Account) (now : Nat) (st : St) :
    Outcome × St :=
  let (refresh, st1) := forUser user.id now st
  if user.is_verified then
    let (access, st2) := accessFromRefresh refresh now st1
    (.ok ⟨200, none, some refresh, some access, none, none⟩, st2)
  else
    (.ok (errorResp 400 "NOT_VERIFIED"), st1)

def login (email pw : String) (now : Nat) (st : St) : Outcome × St :=
  match findByCreds email pw st with
  | none => (.ok (errorResp 400 "VALIDATION_ERROR"), st)
  | some user => login_authenticated user now st

/-- Flip `is_verified` on the account with the given id
(`user.is_verified = True; user.save()`, views.py lines 193-194). -/
def setVerified (uid : Nat) (st : St) : St :=
  let f : Account → Account :=
    fun a => if a.id = uid then { a with is_verified := true } else a
  { st with accounts := st.accounts.map f }

/-- Replace the stored password hash of the account with the given id
(`user.set_password(...); user.save()`). -/
def setPassword (uid : Nat) (h : String) (st : St) : St :=
  let f : Account → Account :=
    fun a => if a.id = uid then { a with passwordHash := h } else a
  { st with accounts := st.accounts.map f }

/-- Delete every EmailVerificationToken row with this token string
(`email_verification_token.delete()`, views.py line 195). -/
def deleteEmailToken (tok : String) (st : St) : St :=
  { st with emailTokens := st.emailTokens.filter (fun t => !(t.token == tok)) }

/-- Delete the PasswordResetToken row matched by (user, token)
(`token_obj.delete()`, views.py line 454). -/
def deleteResetToken (uid : Nat) (tok : String) (st : St) : St :=
  let keep : OneTimeToken → Bool :=
    fun t => !(t.userId == uid && t.token == tok)
  { st with resetTokens := st.resetTokens.filter keep }

/-- AuthViewSet.verify_email (views.py lines 180-226): look the token up;
if `created_at + 24h > now` flip the flag, delete the row, mint a fresh
pair and answer 200 with refresh/access/email; otherwise EXPIRED_TOKEN;
DoesNotExist maps to INVALID_TOKEN; any other error to a 500. -/
def verify_email_found (evt : OneTimeToken) (tok : String) (now : Nat)
    (st : St) : Outcome × St :=
  if now < evt.createdAt + otpTtl then
    let st1 := setVerified evt.userId st
    let st2 := deleteEmailToken tok st1
    let (refresh, st3) := forUser evt.userId now st2
    let (access, st4) := accessFromRefresh refresh now st3
    let email := (st.accounts.find? (fun a => a.id == evt.userId)).map
      Account.email
    (.ok ⟨200, none, some refresh, some access, email, none⟩, st4)
  else
    (.ok (errorResp 400 "EXPIRED_TOKEN"), st)

def verify_email (tok : String) (now : Nat) (st : St) : Outcome × St :=
  match getToken st.emailTokens (fun t => t.token == tok) with
  | .notFound => (.ok (errorResp 400 "INVALID_TOKEN"), st)
  | .multiple => (.ok (errorResp 500 "INTERNAL_SERVER_ERROR"), st)
  | .found evt => verify_email_found evt tok now st

/-- AuthViewSet.reset_password (views.py lines 433-479). The caller is
`request.user`: `none` models an unauthenticated (anonymous) caller, for
whom the foreign-key lookup `get(user=request.user, ...)` raises TypeError,
caught on line 469 and mapped to VALIDATION_ERROR. On DoesNotExist the
handler on lines 463-468 passes `e` to handle_exception_response, but no
`except ... as e` bound `e` on this path, so evaluating the argument raises
NameError, which escapes the view unhandled (sibling except clauses do not
catch exceptions raised inside a handler). -/
def reset_password_found (prt : OneTimeToken) (uid : Nat)
    (tok newPw : String) (now : Nat) (st : St) : Outcome × St :=
  if now < prt.createdAt + otpTtl then
    let st1 := setPassword uid (hashPw newPw) st
    let st2 := deleteResetToken uid tok st1
    (.ok (emptyResp 204), st2)
  else
    (.ok (errorResp 400 "INVALID_TOKEN"), st)

def reset_password : Option Nat → String → String → Nat → St → Outcome × St
  | none, _, _, _, st => (.ok (errorResp 400 "VALIDATION_ERROR"), st)
  | some uid, tok, newPw, now, st =>
    match getToken st.resetTokens
        (fun t => t.userId == uid && t.token == tok) with
    | .notFound => (.unhandled "NameError", st)
    | .multiple => (.ok (errorResp 500 "INTERNAL_SERVER_ERROR"), st)
    | .found t => reset_password_found t uid tok newPw now st

/-- AuthViewSet.logout (views.py lines 341-376): blacklist the explicit
refresh token if supplied (the RefreshToken constructor validates it,
blacklist check included), then the explicit access token if supplied,
and when neither is supplied mint a fresh pair for the current user and
blacklist first its access then its refresh member; a TokenError anywhere
maps to the INVALID_REFRESH_TOKEN error. A blacklist already performed
before a later failure is kept, as in the source (no transaction). -/
def logout (uid : Nat) :
    Option Wire → Option Wire → Nat → St → Outcome × St
  | some w, some wa, now, st =>
    match checkRefresh w now st with
    | none => (.ok (errorResp 400 "INVALID_REFRESH_TOKEN"), st)
    | some t =>
      match checkAccess wa now with
      | none => (.ok (errorResp 400 "INVALID_REFRESH_TOKEN"),
                 blacklistJti t.jti st)
      | some ta => (.ok (emptyResp 200),
                    blacklistJti ta.jti (blacklistJti t.jti st))
  | some w, none, now, st =>
    match checkRefresh w now st with
    | none => (.ok (errorResp 400 "INVALID_REFRESH_TOKEN"), st)
    | some t => (.ok (emptyResp 200), blacklistJti t.jti st)
  | none, some wa, now, st =>
    match checkAccess wa now with
    | none => (.ok (errorResp 400 "INVALID_REFRESH_TOKEN"), st)
    | some ta => (.ok (emptyResp 200), blacklistJti ta.jti st)
  | none, none, now, st =>
    let (r, st1) := forUser uid now st
    let (a, st2) := accessFromRefresh r now st1
    (.ok (emptyResp 200), blacklistJti r.jti (blacklistJti a.jti st2))

/-- AuthViewSet.refresh_token (views.py lines 496-516): construct a
RefreshToken from the supplied string (validating signature, expiry and
blacklist) and return a derived access token; a TokenError maps to the
INVALID_REFRESH_TOKEN error. -/
def refresh_token_granted (t : BearerToken) (now : Nat) (st : St) :
    Outcome × St :=
  let (a, st1) := accessFromRefresh t now st
  (.ok ⟨200, none, none, some a, none, none⟩, st1)

def refresh_token (w : Wire) (now : Nat) (st : St) : Outcome × St :=
  match checkRefresh w now st with
  | none => (.ok (errorResp 400 "INVALID_REFRESH_TOKEN"), st)
  | some t => refresh_token_granted t now st

/-- AuthViewSet.register (views.py lines 127-159): validate (duplicate
email fails), create the unverified account with the hashed password, mint
a pair, create an EmailVerificationToken, and answer with refresh, access
and the verification token string. Serializer-level validation beyond
email uniqueness lives outside src/ and is not claimed about. -/
def register (email pw : String) (now : Nat) (st : St) : Outcome × St :=
  if st.accounts.any (fun a => a.email == email) then
    (.ok (errorResp 400 "VALIDATION_ERROR"), st)
  else
    let user : Account := ⟨st.nextUid, email, hashPw pw, false⟩
    let st0 := { st with accounts := user :: st.accounts,
                         nextUid := st.nextUid + 1 }
    let (refresh, st1) := forUser user.id now st0
    let (access, st2) := accessFromRefresh refresh now st1
    let otp := genOtp st2.nextNonce
    let st3 := { st2 with emailTokens := ⟨otp, user.id, now⟩ :: st2.emailTokens,
                          nextNonce := st2.nextNonce + 1 }
    (.ok ⟨200, none, some refresh, some access, none, some otp⟩, st3)

/-- AuthViewSet.send_password_reset_token (views.py lines 394-419): find
the account by email (USER_NOT_FOUND otherwise), create a
PasswordResetToken row and answer with the token string. -/
def send_password_reset_token (email : String) (now : Nat) (st : St) :
    Outcome × St :=
  match st.accounts.find? (fun a => a.email == email) with
  | none => (.ok (errorResp 404 "USER_NOT_FOUND"), st)
  | some user =>
    let otp := genOtp st.nextNonce
    let st1 := { st with resetTokens := ⟨otp, user.id, now⟩ :: st.resetTokens,
                         nextNonce := st.nextNonce + 1 }
    (.ok ⟨200, none, none, none, none, some otp⟩, st1)

/-- AuthViewSet.change_password (views.py lines 304-324): authenticated
caller; hash and store the new password, answer 204. -/
def change_password (uid : Nat) (newPw : String) (st : St) : Outcome × St :=
  (.ok (emptyResp 204), setPassword uid (hashPw newPw) st)

/-- AuthViewSet.get_profile (views.py lines 234-254): read-only profile
fetch for the authenticated caller; USER_NOT_FOUND if the row is gone.
Profile fields beyond those modelled are not claimed about. -/
def get_profile (uid : Nat) (st : St) : Outcome × St :=
  match st.accounts.find? (fun a => a.id == uid) with
  | none => (.ok (errorResp 404 "USER_NOT_FOUND"), st)
  | some user => (.ok ⟨200, none, none, none, some user.email, none⟩, st)

/-- AuthViewSet.update_profile (views.py lines 266-295): updates profile
fields (first/last name etc.), none of which belong to the modelled state;
the token and credential state is untouched. -/
def update_profile (uid : Nat) (st : St) : Outcome × St :=
  match st.accounts.find? (fun a => a.id == uid) with
  | none => (.ok (errorResp 404 "USER_NOT_FOUND"), st)
  | some user => (.ok ⟨200, none, none, none, some user.email, none⟩, st)

/-- One request to any endpoint of AuthViewSet, with its inputs. -/
inductive Op where
  | loginOp (email pw : String) (now : Nat)
  | registerOp (email pw : String) (now : Nat)
  | verifyEmailOp (tok : String) (now : Nat)
  | getProfileOp (uid : Nat)
  | updateProfileOp (uid : Nat)
  | changePasswordOp (uid : Nat) (newPw : String)
  | logoutOp (uid : Nat) (refreshQ accessQ : Option Wire) (now : Nat)
  | sendResetOp (email : String) (now : Nat)
  | resetPasswordOp (auth : Option Nat) (tok newPw : String) (now : Nat)
  | refreshTokenOp (w : Wire) (now : Nat)

/-- The whole system as a step function: dispatch one request against the
shared state. Every state change the service can make goes through here. -/
def step (op : Op) (st : St) : Outcome × St :=
  match op with
  | .loginOp e p n => login e p n st
  | .registerOp e p n => register e p n st
  | .verifyEmailOp t n => verify_email t n st
  | .getProfileOp u => get_profile u st
  | .updateProfileOp u => update_profile u st
  | .changePasswordOp u p => change_password u p st
  | .logoutOp u r a n => logout u r a n st
  | .sendResetOp e n => send_password_reset_token e n st
  | .resetPasswordOp a t p n => reset_password a t p n st
  | .refreshTokenOp w n => refresh_token w n st

/-- A small concrete store used to instantiate the claim theorems: account 1
(unverified, password "pw") owns one email-verification token and one
password-reset token, both created at minute 100; account 2 is verified. -/
def sampleSt : St :=
  ⟨[⟨1, "a@x.com", hashPw "pw", false⟩, ⟨2, "b@x.com", hashPw "pw2", true⟩],
   [⟨"evt1", 1, 100⟩], [⟨"prt1", 1, 100⟩], [], [], 10, 0, 3⟩

/-! Helper lemmas shared by the claim theorems. -/

theorem filter_not_filter (p : α → Bool) (l : List α) :
    (l.filter (fun a => !(p a))).filter p = [] := by
  induction l with
  | nil => rfl
  | cons a l ih => by_cases h : p a <;> simp [List.filter_cons, h, ih]

theorem getToken_of_filter_nil (l : List OneTimeToken) (p : OneTimeToken → Bool)
    (h : l.filter p = []) : getToken l p = .notFound := by
  unfold getToken
  rw [h]

theorem getToken_found_mem (l : List OneTimeToken) (p : OneTimeToken → Bool)
    (t : OneTimeToken) (h : getToken l p = .found t) : t ∈ l ∧ p t = true := by
  unfold getToken at h
  cases hf : l.filter p with
  | nil => rw [hf] at h; cases h
  | cons x xs =>
    cases xs with
    | nil =>
      rw [hf] at h
      cases h
      have hx : t ∈ l.filter p := by rw [hf]; exact List.mem_cons_self _ _
      exact List.mem_filter.mp hx
    | cons y ys => rw [hf] at h; cases h

theorem login_blacklisted (e p : String) (n : Nat) (st : St) :
    ((login e p n st).2).blacklisted = st.blacklisted := by
  unfold login
  cases findByCreds e p st with
  | none => rfl
  | some u =>
    by_cases hv : u.is_verified <;>
      simp [login_authenticated, hv, forUser, accessFromRefresh]

theorem register_blacklisted (e p : String) (n : Nat) (st : St) :
    ((register e p n st).2).blacklisted = st.blacklisted := by
  unfold register
  by_cases h : st.accounts.any (fun a => a.email == e) <;>
    simp [h, forUser, accessFromRefresh]

theorem verify_email_blacklisted (tok : String) (n : Nat) (st : St) :
    ((verify_email tok n st).2).blacklisted = st.blacklisted := by
  unfold verify_email
  cases getToken st.emailTokens (fun t => t.token == tok) with
  | notFound => rfl
  | multiple => rfl
  | found evt =>
    by_cases hf : n < evt.createdAt + otpTtl <;>
      simp [verify_email_found, hf, forUser, accessFromRefresh, setVerified,
        deleteEmailToken]

theorem reset_password_blacklisted (auth : Option Nat) (tok pw : String)
    (n : Nat) (st : St) :
    ((reset_password auth tok pw n st).2).blacklisted = st.blacklisted := by
  cases auth with
  | none => rfl
  | some uid =>
    simp only [reset_password]
    cases getToken st.resetTokens (fun t => t.userId == uid && t.token == tok) with
    | notFound => rfl
    | multiple => rfl
    | found t =>
      by_cases hf : n < t.createdAt + otpTtl <;>
        simp [reset_password_found, hf, setPassword, deleteResetToken]

theorem send_reset_blacklisted (e : String) (n : Nat) (st : St) :
    ((send_password_reset_token e n st).2).blacklisted = st.blacklisted := by
  unfold send_password_reset_token
  cases st.accounts.find? (fun a => a.email == e) with
  | none => rfl
  | some u => rfl

theorem change_password_blacklisted (u : Nat) (p : String) (st : St) :
    ((change_password u p st).2).blacklisted = st.blacklisted := rfl

theorem get_profile_blacklisted (u : Nat) (st : St) :
    ((get_profile u st).2).blacklisted = st.blacklisted := by
  unfold get_profile
  cases st.accounts.find? (fun a => a.id == u) with
  | none => rfl
  | some x => rfl

theorem update_profile_blacklisted (u : Nat) (st : St) :
    ((update_profile u st).2).blacklisted = st.blacklisted := by
  unfold update_profile
  cases st.accounts.find? (fun a => a.id == u) with
  | none => rfl
  | some x => rfl

theorem refresh_token_blacklisted (w : Wire) (n : Nat) (st : St) :
    ((refresh_token w n st).2).blacklisted = st.blacklisted := by
  unfold refresh_token
  cases checkRefresh w n st with
  | none => rfl
  | some t => rfl

theorem logout_blacklist_mono (uid : Nat) (rq aq : Option Wire) (n j : Nat)
    (st : St) (h : j ∈ st.blacklisted) :
    j ∈ ((logout uid rq aq n st).2).blacklisted := by
  cases rq with
  | some w =>
    cases aq with
    | some wa =>
      simp only [logout]
      cases checkRefresh w n st with
      | none => exact h
      | some t =>
        cases checkAccess wa n with
        | none => exact List.mem_cons_of_mem _ h
        | some ta => exact List.mem_cons_of_mem _ (List.mem_cons_of_mem _ h)
    | none =>
      simp only [logout]
      cases checkRefresh w n st with
      | none => exact h
      | some t => exact List.mem_cons_of_mem _ h
  | none =>
    cases aq with
    | some wa =>
      simp only [logout]
      cases checkAccess wa n with
      | none => exact h
      | some ta => exact List.mem_cons_of_mem _ h
    | none =>
      simp only [logout, forUser, accessFromRefresh, blacklistJti]
      exact List.mem_cons_of_mem _ (List.mem_cons_of_mem _ h)

theorem verify_email_notFound (tok : String) (n : Nat) (st : St)
    (h : getToken st.emailTokens (fun t => t.token == tok) = .notFound) :
    verify_email tok n st = (.ok (errorResp 400 "INVALID_TOKEN"), st) := by
  unfold verify_email
  rw [h]

theorem verify_email_found_eq (tok : String) (n : Nat) (st : St)
    (evt : OneTimeToken)
    (h : getToken st.emailTokens (fun t => t.token == tok) = .found evt) :
    verify_email tok n st = verify_email_found evt tok n st := by
  unfold verify_email
  rw [h]

theorem verify_email_expired (tok : String) (n : Nat) (st : St)
    (evt : OneTimeToken)
    (h : getToken st.emailTokens (fun t => t.token == tok) = .found evt)
    (hexp : evt.createdAt + otpTtl ≤ n) :
    verify_email tok n st = (.ok (errorResp 400 "EXPIRED_TOKEN"), st) := by
  rw [verify_email_found_eq tok n st evt h]
  unfold verify_email_found
  rw [if_neg (by omega)]

theorem verify_email_fresh (tok : String) (n : Nat) (st : St)
    (evt : OneTimeToken)
    (h : getToken st.emailTokens (fun t => t.token == tok) = .found evt)
    (hlt : n < evt.createdAt + otpTtl) :
    verify_email tok n st =
      (.ok ⟨200, none,
          some ⟨st.nextJti, evt.userId, .refresh, n + refreshTtl⟩,
          some ⟨st.nextJti + 1, evt.userId, .access, n + accessTtl⟩,
          (st.accounts.find? (fun a => a.id == evt.userId)).map Account.email,
          none⟩,
       { accounts := st.accounts.map
           (fun a => if a.id = evt.userId then { a with is_verified := true }
                     else a),
         emailTokens := st.emailTokens.filter (fun t => !(t.token == tok)),
         resetTokens := st.resetTokens,
         outstanding := st.nextJti :: st.outstanding,
         blacklisted := st.blacklisted,
         nextJti := st.nextJti + 1 + 1,
         nextNonce := st.nextNonce,
         nextUid := st.nextUid }) := by
  rw [verify_email_found_eq tok n st evt h]
  unfold verify_email_found
  rw [if_pos hlt]
  rfl

theorem reset_password_notFound (uid : Nat) (tok pw : String) (n : Nat)
    (st : St)
    (h : getToken st.resetTokens (fun t => t.userId == uid && t.token == tok) =
      .notFound) :
    reset_password (some uid) tok pw n st = (.unhandled "NameError", st) := by
  simp only [reset_password]
  rw [h]

theorem reset_password_found_eq (uid : Nat) (tok pw : String) (n : Nat)
    (st : St) (prt : OneTimeToken)
    (h : getToken st.resetTokens (fun t => t.userId == uid && t.token == tok) =
      .found prt) :
    reset_password (some uid) tok pw n st =
      reset_password_found prt uid tok pw n st := by
  simp only [reset_password]
  rw [h]

theorem reset_password_expired (uid : Nat) (tok pw : String) (n : Nat)
    (st : St) (prt : OneTimeToken)
    (h : getToken st.resetTokens (fun t => t.userId == uid && t.token == tok) =
      .found prt)
    (hexp : prt.createdAt + otpTtl ≤ n) :
    reset_password (some uid) tok pw n st =
      (.ok (errorResp 400 "INVALID_TOKEN"), st) := by
  rw [reset_password_found_eq uid tok pw n st prt h]
  unfold reset_password_found
  rw [if_neg (by omega)]

theorem reset_password_fresh (uid : Nat) (tok pw : String) (n : Nat)
    (st : St) (prt : OneTimeToken)
    (h : getToken st.resetTokens (fun t => t.userId == uid && t.token == tok) =
      .found prt)
    (hlt : n < prt.createdAt + otpTtl) :
    reset_password (some uid) tok pw n st =
      (.ok (emptyResp 204),
       { accounts := st.accounts.map
           (fun a => if a.id = uid then { a with passwordHash := hashPw pw }
                     else a),
         emailTokens := st.emailTokens,
         resetTokens := st.resetTokens.filter
           (fun t => !(t.userId == uid && t.token == tok)),
         outstanding := st.outstanding,
         blacklisted := st.blacklisted,
         nextJti := st.nextJti,
         nextNonce := st.nextNonce,
         nextUid := st.nextUid }) := by
  rw [reset_password_found_eq uid tok pw n st prt h]
  unfold reset_password_found
  rw [if_pos hlt]
  rfl

theorem login_some_eq (e p : String) (n : Nat) (st : St) (u : Account)
    (h : findByCreds e p st = some u) :
    login e p n st = login_authenticated u n st := by
  unfold login
  rw [h]

theorem login_unverified (e p : String) (n : Nat) (st : St) (u : Account)
    (h : findByCreds e p st = some u) (hv : u.is_verified = false) :
    login e p n st =
      (.ok (errorResp 400 "NOT_VERIFIED"),
       { st with nextJti := st.nextJti + 1,
                 outstanding := st.nextJti :: st.outstanding }) := by
  rw [login_some_eq e p n st u h]
  simp [login_authenticated, forUser, hv]

theorem login_verified (e p : String) (n : Nat) (st : St) (u : Account)
    (h : findByCreds e p st = some u) (hv : u.is_verified = true) :
    (login e p n st).1 =
      .ok ⟨200, none,
        some ⟨st.nextJti, u.id, .refresh, n + refreshTtl⟩,
        some ⟨st.nextJti + 1, u.id, .access, n + accessTtl⟩,
        none, none⟩ := by
  rw [login_some_eq e p n st u h]
  simp [login_authenticated, forUser, accessFromRefresh, hv]

theorem refresh_token_denied (w : Wire) (n : Nat) (st : St)
    (h : checkRefresh w n st = none) :
    refresh_token w n st =
      (.ok (errorResp 400 "INVALID_REFRESH_TOKEN"), st) := by
  unfold refresh_token
  rw [h]

theorem refresh_token_some_eq (w : Wire) (n : Nat) (st : St)
    (t : BearerToken) (h : checkRefresh w n st = some t) :
    refresh_token w n st = refresh_token_granted t n st := by
  unfold refresh_token
  rw [h]

theorem checkRefresh_valid (t : BearerToken) (n : Nat) (st : St)
    (hk : t.kind = TokenKind.refresh) (he : n < t.expiry)
    (hb : ¬ t.jti ∈ st.blacklisted) :
    checkRefresh (Wire.tok t) n st = some t := by
  show (if t.kind = TokenKind.refresh ∧ n < t.expiry ∧ ¬ t.jti ∈ st.blacklisted
        then some t else none) = some t
  rw [if_pos ⟨hk, he, hb⟩]

theorem checkRefresh_blacklisted (t : BearerToken) (n : Nat) (st : St)
    (hb : t.jti ∈ st.blacklisted) :
    checkRefresh (Wire.tok t) n st = none := by
  show (if t.kind = TokenKind.refresh ∧ n < t.expiry ∧ ¬ t.jti ∈ st.blacklisted
        then some t else none) = none
  rw [if_neg (fun hc => hc.2.2 hb)]

theorem checkRefresh_stale (t : BearerToken) (n : Nat) (st : St)
    (he : t.expiry ≤ n) :
    checkRefresh (Wire.tok t) n st = none := by
  show (if t.kind = TokenKind.refresh ∧ n < t.expiry ∧ ¬ t.jti ∈ st.blacklisted
        then some t else none) = none
  rw [if_neg (fun hc => absurd hc.2.1 (by omega))]

theorem checkAccess_valid (t : BearerToken) (n : Nat)
    (hk : t.kind = TokenKind.access) (he : n < t.expiry) :
    checkAccess (Wire.tok t) n = some t := by
  show (if t.kind = TokenKind.access ∧ n < t.expiry then some t else none) =
    some t
  rw [if_pos ⟨hk, he⟩]

/-- C1: consuming an EmailVerificationToken deletes it, so a second
verify_email with the same token string answers INVALID_TOKEN; consuming a
PasswordResetToken also deletes it, but a second reset_password with the
same token reaches the DoesNotExist handler, which references the unbound
name `e` (views.py line 466) and therefore escapes as a NameError rather
than returning the INVALID_TOKEN response the claim (and the handler's own
error code) intends. -/
theorem c1_second_consumption :
    (∀ (st : St) (tok : String) (evt : OneTimeToken) (n : Nat),
        getToken st.emailTokens (fun t => t.token == tok) =
          GetResult.found evt →
        n < evt.createdAt + otpTtl →
        (verify_email tok n ((verify_email tok n st).2)).1 =
          Outcome.ok (errorResp 400 "INVALID_TOKEN"))
    ∧ (∀ (st : St) (uid : Nat) (tok pw1 pw2 : String) (prt : OneTimeToken)
          (n : Nat),
        getToken st.resetTokens (fun t => t.userId == uid && t.token == tok) =
          GetResult.found prt →
        n < prt.createdAt + otpTtl →
        (reset_password (some uid) tok pw2 n
            ((reset_password (some uid) tok pw1 n st).2)).1 =
          Outcome.unhandled "NameError") := by
  constructor
  · intro st tok evt n hfind hlt
    have h2 : getToken ((verify_email tok n st).2).emailTokens
        (fun t => t.token == tok) = GetResult.notFound := by
      rw [verify_email_fresh tok n st evt hfind hlt]
      exact getToken_of_filter_nil _ _ (filter_not_filter _ _)
    rw [verify_email_notFound _ _ _ h2]
  · intro st uid tok pw1 pw2 prt n hfind hlt
    have h2 : getToken ((reset_password (some uid) tok pw1 n st).2).resetTokens
        (fun t => t.userId == uid && t.token == tok) = GetResult.notFound := by
      rw [reset_password_fresh uid tok pw1 n st prt hfind hlt]
      exact getToken_of_filter_nil _ _ (filter_not_filter _ _)
    rw [reset_password_notFound _ _ _ _ _ h2]

/-- Witness for C1 at the sample store: the second verify_email call with
the consumed token answers INVALID_TOKEN, and the second reset_password
call with the consumed token raises NameError. -/
theorem c1_second_consumption_witness :
    (verify_email "evt1" 200 ((verify_email "evt1" 200 sampleSt).2)).1 =
      Outcome.ok (errorResp 400 "INVALID_TOKEN")
    ∧ (reset_password (some 1) "prt1" "q2" 200
        ((reset_password (some 1) "prt1" "q1" 200 sampleSt).2)).1 =
      Outcome.unhandled "NameError" :=
  ⟨c1_second_consumption.1 sampleSt "evt1" ⟨"evt1", 1, 100⟩ 200 (by decide)
      (by decide),
   c1_second_consumption.2 sampleSt 1 "prt1" "q1" "q2" ⟨"prt1", 1, 100⟩ 200
      (by decide) (by decide)⟩

/-- C2: a one-time token created at time T is accepted (success branch)
whenever it is presented strictly before T + 24h, and rejected with an
expired/invalid-token error from T + 24h on — in particular at T + 24h01m
or later — for both verify_email (EXPIRED_TOKEN) and reset_password
(INVALID_TOKEN, with the expired message). -/
theorem c2_token_window :
    (∀ (st : St) (tok : String) (evt : OneTimeToken) (n : Nat),
        getToken st.emailTokens (fun t => t.token == tok) =
          GetResult.found evt →
        ((n < evt.createdAt + otpTtl →
            ∃ r, (verify_email tok n st).1 = Outcome.ok r ∧
              r.httpStatus = 200 ∧ r.errorCode = none)
          ∧ (evt.createdAt + otpTtl ≤ n →
            (verify_email tok n st).1 =
              Outcome.ok (errorResp 400 "EXPIRED_TOKEN"))))
    ∧ (∀ (st : St) (uid : Nat) (tok pw : String) (prt : OneTimeToken)
          (n : Nat),
        getToken st.resetTokens (fun t => t.userId == uid && t.token == tok) =
          GetResult.found prt →
        ((n < prt.createdAt + otpTtl →
            (reset_password (some uid) tok pw n st).1 =
              Outcome.ok (emptyResp 204))
          ∧ (prt.createdAt + otpTtl ≤ n →
            (reset_password (some uid) tok pw n st).1 =
              Outcome.ok (errorResp 400 "INVALID_TOKEN")))) := by
  constructor
  · intro st tok evt n hfind
    constructor
    · intro hlt
      rw [verify_email_fresh tok n st evt hfind hlt]
      exact ⟨_, rfl, rfl, rfl⟩
    · intro hexp
      rw [verify_email_expired tok n st evt hfind hexp]
  · intro st uid tok pw prt n hfind
    constructor
    · intro hlt
      rw [reset_password_fresh uid tok pw n st prt hfind hlt]
    · intro hexp
      rw [reset_password_expired uid tok pw n st prt hfind hexp]

/-- Witness for C2 at the sample store (tokens created at minute 100):
accepted at minute 1539 = T + 23h59m, rejected at minute 1541 = T + 24h01m,
for both endpoints. -/
theorem c2_token_window_witness :
    (∃ r, (verify_email "evt1" 1539 sampleSt).1 = Outcome.ok r ∧
        r.httpStatus = 200 ∧ r.errorCode = none)
    ∧ (verify_email "evt1" 1541 sampleSt).1 =
        Outcome.ok (errorResp 400 "EXPIRED_TOKEN")
    ∧ (reset_password (some 1) "prt1" "q" 1539 sampleSt).1 =
        Outcome.ok (emptyResp 204)
    ∧ (reset_password (some 1) "prt1" "q" 1541 sampleSt).1 =
        Outcome.ok (errorResp 400 "INVALID_TOKEN") :=
  ⟨(c2_token_window.1 sampleSt "evt1" ⟨"evt1", 1, 100⟩ 1539 (by decide)).1
      (by decide),
   (c2_token_window.1 sampleSt "evt1" ⟨"evt1", 1, 100⟩ 1541 (by decide)).2
      (by decide),
   (c2_token_window.2 sampleSt 1 "prt1" "q" ⟨"prt1", 1, 100⟩ 1539
      (by decide)).1 (by decide),
   (c2_token_window.2 sampleSt 1 "prt1" "q" ⟨"prt1", 1, 100⟩ 1541
      (by decide)).2 (by decide)⟩

/-- C9: presenting a one-time token after its 24-hour window leaves the
store entirely unchanged — the whole post-state equals the pre-state, so
the token row still exists, `is_verified` is untouched and the password
hash is untouched — while verify_email answers EXPIRED_TOKEN and
reset_password answers INVALID_TOKEN. -/
theorem c9_expired_frame :
    (∀ (st : St) (tok : String) (evt : OneTimeToken) (n : Nat),
        getToken st.emailTokens (fun t => t.token == tok) =
          GetResult.found evt →
        evt.createdAt + otpTtl ≤ n →
        verify_email tok n st =
          (Outcome.ok (errorResp 400 "EXPIRED_TOKEN"), st))
    ∧ (∀ (st : St) (uid : Nat) (tok pw : String) (prt : OneTimeToken)
          (n : Nat),
        getToken st.resetTokens (fun t => t.userId == uid && t.token == tok) =
          GetResult.found prt →
        prt.createdAt + otpTtl ≤ n →
        reset_password (some uid) tok pw n st =
          (Outcome.ok (errorResp 400 "INVALID_TOKEN"), st)) :=
  ⟨fun st tok evt n h hexp => verify_email_expired tok n st evt h hexp,
   fun st uid tok pw prt n h hexp =>
     reset_password_expired uid tok pw n st prt h hexp⟩

/-- Witness for C9 at the sample store, with both tokens presented at
minute 2000, past their expiry at minute 1540. -/
theorem c9_expired_frame_witness :
    verify_email "evt1" 2000 sampleSt =
      (Outcome.ok (errorResp 400 "EXPIRED_TOKEN"), sampleSt)
    ∧ reset_password (some 1) "prt1" "q" 2000 sampleSt =
      (Outcome.ok (errorResp 400 "INVALID_TOKEN"), sampleSt) :=
  ⟨c9_expired_frame.1 sampleSt "evt1" ⟨"evt1", 1, 100⟩ 2000 (by decide)
      (by decide),
   c9_expired_frame.2 sampleSt 1 "prt1" "q" ⟨"prt1", 1, 100⟩ 2000 (by decide)
      (by decide)⟩

theorem find?_map_congr (f : Account → Account) (q : Account → Bool)
    (hq : ∀ a, q (f a) = q a) :
    ∀ (l : List Account), (l.map f).find? q = (l.find? q).map f := by
  intro l
  induction l with
  | nil => rfl
  | cons a l ih => by_cases h : q a <;> simp [List.find?_cons, hq, h, ih]

/-- C3 counterexample: identifier 5 is blacklisted and its access token
unexpired (minute 50 of 999), yet logout presented with that access token
validates it and succeeds with 200 — a credential-validating call
referencing a blacklisted identifier that does not fail, refuting the
claim's universal clause. -/
theorem c3_blacklisted_access_cex :
    logout 1 none (some (Wire.tok ⟨5, 1, TokenKind.access, 999⟩)) 50
        { sampleSt with blacklisted := [5] } =
      (Outcome.ok (emptyResp 200),
       blacklistJti 5 { sampleSt with blacklisted := [5] })
    ∧ (5 : Nat) ∈ ({ sampleSt with blacklisted := [5] } : St).blacklisted
    ∧ (50 : Nat) < (999 : Nat) :=
  ⟨rfl, by decide, by decide⟩

/-- C3 amended: once a token identifier is blacklisted it stays
blacklisted across every operation of the system (no endpoint ever removes
a ledger entry), and refresh-token validation — the RefreshToken
constructor used by refresh_token and by logout's refresh path — fails on
a blacklisted identifier even while its signature expiry has not passed;
access-token validation (the AccessToken constructor, which carries no
blacklist mixin) however never consults the ledger, so logout presented
with a blacklisted, unexpired access token validates it and succeeds. -/
theorem c3_blacklist_permanent :
    (∀ (op : Op) (st : St) (j : Nat), j ∈ st.blacklisted →
        j ∈ ((step op st).2).blacklisted)
    ∧ (∀ (t : BearerToken) (n : Nat) (st : St),
        t.jti ∈ st.blacklisted → n < t.expiry →
        refresh_token (Wire.tok t) n st =
          (Outcome.ok (errorResp 400 "INVALID_REFRESH_TOKEN"), st))
    ∧ (∀ (uid : Nat) (t : BearerToken) (n : Nat) (st : St)
          (aq : Option Wire),
        t.jti ∈ st.blacklisted →
        logout uid (some (Wire.tok t)) aq n st =
          (Outcome.ok (errorResp 400 "INVALID_REFRESH_TOKEN"), st))
    ∧ (∀ (uid : Nat) (t : BearerToken) (n : Nat) (st : St),
        t.jti ∈ st.blacklisted → t.kind = TokenKind.access → n < t.expiry →
        logout uid none (some (Wire.tok t)) n st =
          (Outcome.ok (emptyResp 200), blacklistJti t.jti st)) := by
  refine ⟨?_, ?_, ?_, ?_⟩
  · intro op st j h
    cases op with
    | loginOp e p n => simpa [step, login_blacklisted e p n st] using h
    | registerOp e p n => simpa [step, register_blacklisted e p n st] using h
    | verifyEmailOp t n =>
      simpa [step, verify_email_blacklisted t n st] using h
    | getProfileOp u => simpa [step, get_profile_blacklisted u st] using h
    | updateProfileOp u => simpa [step, update_profile_blacklisted u st] using h
    | changePasswordOp u p =>
      simpa [step, change_password_blacklisted u p st] using h
    | logoutOp u r a n => exact logout_blacklist_mono u r a n j st h
    | sendResetOp e n => simpa [step, send_reset_blacklisted e n st] using h
    | resetPasswordOp a t p n =>
      simpa [step, reset_password_blacklisted a t p n st] using h
    | refreshTokenOp w n => simpa [step, refresh_token_blacklisted w n st] using h
  · intro t n st hb he
    exact refresh_token_denied _ _ _ (checkRefresh_blacklisted t n st hb)
  · intro uid t n st aq hb
    cases aq with
    | none =>
      simp only [logout]
      rw [checkRefresh_blacklisted t n st hb]
    | some wa =>
      simp only [logout]
      rw [checkRefresh_blacklisted t n st hb]
  · intro uid t n st hb hk he
    simp only [logout]
    rw [checkAccess_valid t n hk he]

/-- Witness for the amended C3: identifier 7 survives a logout step; the
refresh token carrying blacklisted identifier 7 is rejected at minute 50
(expiry 999) by refresh_token and by logout's refresh path; yet logout
accepts the blacklisted, unexpired access token with identifier 7. -/
theorem c3_blacklist_permanent_witness :
    7 ∈ ((step (Op.logoutOp 1 none none 0)
        { sampleSt with blacklisted := [7] }).2).blacklisted
    ∧ refresh_token (Wire.tok ⟨7, 1, TokenKind.refresh, 999⟩) 50
        { sampleSt with blacklisted := [7] } =
      (Outcome.ok (errorResp 400 "INVALID_REFRESH_TOKEN"),
       { sampleSt with blacklisted := [7] })
    ∧ logout 1 (some (Wire.tok ⟨7, 1, TokenKind.refresh, 999⟩)) none 50
        { sampleSt with blacklisted := [7] } =
      (Outcome.ok (errorResp 400 "INVALID_REFRESH_TOKEN"),
       { sampleSt with blacklisted := [7] })
    ∧ logout 1 none (some (Wire.tok ⟨7, 1, TokenKind.access, 999⟩)) 50
        { sampleSt with blacklisted := [7] } =
      (Outcome.ok (emptyResp 200),
       blacklistJti 7 { sampleSt with blacklisted := [7] }) :=
  ⟨c3_blacklist_permanent.1 (Op.logoutOp 1 none none 0)
      { sampleSt with blacklisted := [7] } 7 (by decide),
   c3_blacklist_permanent.2.1 ⟨7, 1, TokenKind.refresh, 999⟩ 50
      { sampleSt with blacklisted := [7] } (by decide) (by decide),
   c3_blacklist_permanent.2.2.1 1 ⟨7, 1, TokenKind.refresh, 999⟩ 50
      { sampleSt with blacklisted := [7] } none (by decide),
   c3_blacklist_permanent.2.2.2 1 ⟨7, 1, TokenKind.access, 999⟩ 50
      { sampleSt with blacklisted := [7] } (by decide) (by decide)
      (by decide)⟩

/-- C4: with correct credentials for an unverified account, login answers
the NOT_VERIFIED error (HTTP 400) carrying no tokens; after verify_email
succeeds for that account's token, the same credentials log in with a
200 response carrying a refresh and an access token. -/
theorem c4_login_gated :
    ∀ (st : St) (e p tok : String) (u : Account) (evt : OneTimeToken)
      (n1 n2 n3 : Nat),
      findByCreds e p st = some u →
      u.is_verified = false →
      getToken st.emailTokens (fun t => t.token == tok) =
        GetResult.found evt →
      evt.userId = u.id →
      n2 < evt.createdAt + otpTtl →
      ((login e p n1 st).1 = Outcome.ok (errorResp 400 "NOT_VERIFIED")
        ∧ (errorResp 400 "NOT_VERIFIED").refreshTok = none
        ∧ (errorResp 400 "NOT_VERIFIED").accessTok = none
        ∧ ∃ r rt ac, (login e p n3 ((verify_email tok n2 st).2)).1 =
            Outcome.ok r ∧ r.httpStatus = 200 ∧ r.refreshTok = some rt ∧
            r.accessTok = some ac) := by
  intro st e p tok u evt n1 n2 n3 hcred hunv hfind howner hlt
  refine ⟨?_, rfl, rfl, ?_⟩
  · rw [login_unverified e p n1 st u hcred hunv]
  · have hacc : ((verify_email tok n2 st).2).accounts =
        st.accounts.map (fun a => if a.id = evt.userId then
          { a with is_verified := true } else a) := by
      rw [verify_email_fresh tok n2 st evt hfind hlt]
    have hcred' : st.accounts.find?
        (fun a => a.email == e && verifyPw p a.passwordHash) = some u := hcred
    have hcred2 : findByCreds e p ((verify_email tok n2 st).2) =
        some (if u.id = evt.userId then { u with is_verified := true }
              else u) := by
      unfold findByCreds
      rw [hacc, find?_map_congr _ _ ?_ st.accounts, hcred']
      · rfl
      · intro a
        by_cases h : a.id = evt.userId <;> simp [h]
    have hv2 : (if u.id = evt.userId then { u with is_verified := true }
        else u).is_verified = true := by
      rw [if_pos howner.symm]
    rw [login_verified e p n3 ((verify_email tok n2 st).2) _ hcred2 hv2]
    exact ⟨_, _, _, rfl, rfl, rfl, rfl⟩

/-- Witness for C4 at the sample store: account 1 with password "pw" is
refused with NOT_VERIFIED at minute 0, and is issued a token pair at
minute 300 after verifying its email token at minute 200. -/
theorem c4_login_gated_witness :
    (login "a@x.com" "pw" 0 sampleSt).1 =
      Outcome.ok (errorResp 400 "NOT_VERIFIED")
    ∧ (errorResp 400 "NOT_VERIFIED").refreshTok = none
    ∧ (errorResp 400 "NOT_VERIFIED").accessTok = none
    ∧ ∃ r rt ac, (login "a@x.com" "pw" 300
        ((verify_email "evt1" 200 sampleSt).2)).1 =
          Outcome.ok r ∧ r.httpStatus = 200 ∧ r.refreshTok = some rt ∧
        r.accessTok = some ac :=
  c4_login_gated sampleSt "a@x.com" "pw" "evt1"
    ⟨1, "a@x.com", hashPw "pw", false⟩ ⟨"evt1", 1, 100⟩ 0 200 300
    (by decide) (by decide) (by decide) (by decide) (by decide)

/-- C5: refresh_token answers INVALID_REFRESH_TOKEN on a malformed,
blacklisted or expired refresh token, and on a valid one answers 200 with
an access token whose subject equals the refresh token's subject. -/
theorem c5_refresh_token_contract :
    (∀ (n : Nat) (st : St),
        refresh_token Wire.malformed n st =
          (Outcome.ok (errorResp 400 "INVALID_REFRESH_TOKEN"), st))
    ∧ (∀ (t : BearerToken) (n : Nat) (st : St),
        t.jti ∈ st.blacklisted ∨ t.expiry ≤ n →
        refresh_token (Wire.tok t) n st =
          (Outcome.ok (errorResp 400 "INVALID_REFRESH_TOKEN"), st))
    ∧ (∀ (t : BearerToken) (n : Nat) (st : St),
        t.kind = TokenKind.refresh → n < t.expiry →
        ¬ t.jti ∈ st.blacklisted →
        ∃ a, (refresh_token (Wire.tok t) n st).1 =
            Outcome.ok ⟨200, none, none, some a, none, none⟩ ∧
          a.subject = t.subject) := by
  refine ⟨?_, ?_, ?_⟩
  · intro n st
    exact refresh_token_denied _ _ _ rfl
  · intro t n st h
    cases h with
    | inl hb =>
      exact refresh_token_denied _ _ _ (checkRefresh_blacklisted t n st hb)
    | inr he =>
      exact refresh_token_denied _ _ _ (checkRefresh_stale t n st he)
  · intro t n st hk he hb
    rw [refresh_token_some_eq _ _ _ t (checkRefresh_valid t n st hk he hb)]
    exact ⟨_, rfl, rfl⟩

/-- Witness for C5: at the sample store, a malformed token and a
blacklisted token (identifier 5) are refused, and the valid refresh token
with subject 2 yields an access token with subject 2. -/
theorem c5_refresh_token_contract_witness :
    refresh_token Wire.malformed 0 sampleSt =
      (Outcome.ok (errorResp 400 "INVALID_REFRESH_TOKEN"), sampleSt)
    ∧ refresh_token (Wire.tok ⟨5, 1, TokenKind.refresh, 999⟩) 0
        { sampleSt with blacklisted := [5] } =
      (Outcome.ok (errorResp 400 "INVALID_REFRESH_TOKEN"),
       { sampleSt with blacklisted := [5] })
    ∧ ∃ a, (refresh_token (Wire.tok ⟨6, 2, TokenKind.refresh, 999⟩) 0
        sampleSt).1 = Outcome.ok ⟨200, none, none, some a, none, none⟩ ∧
      a.subject = (⟨6, 2, TokenKind.refresh, 999⟩ : BearerToken).subject :=
  ⟨c5_refresh_token_contract.1 0 sampleSt,
   c5_refresh_token_contract.2.1 ⟨5, 1, TokenKind.refresh, 999⟩ 0
      { sampleSt with blacklisted := [5] } (Or.inl (by decide)),
   c5_refresh_token_contract.2.2 ⟨6, 2, TokenKind.refresh, 999⟩ 0 sampleSt
      (by decide) (by decide) (by decide)⟩

/-- C6: on valid credentials for an unverified account, login has already
minted a refresh token (an outstanding-ledger entry is recorded) before
the verified-status check, the NOT_VERIFIED response carries no tokens,
and the post-state differs from the pre-state. -/
theorem c6_mint_before_check :
    ∀ (st : St) (e p : String) (u : Account) (n : Nat),
      findByCreds e p st = some u →
      u.is_verified = false →
      (login e p n st).1 = Outcome.ok (errorResp 400 "NOT_VERIFIED")
      ∧ (errorResp 400 "NOT_VERIFIED").refreshTok = none
      ∧ (errorResp 400 "NOT_VERIFIED").accessTok = none
      ∧ ((login e p n st).2).outstanding = st.nextJti :: st.outstanding
      ∧ (login e p n st).2 ≠ st := by
  intro st e p u n hcred hunv
  rw [login_unverified e p n st u hcred hunv]
  refine ⟨rfl, rfl, rfl, rfl, ?_⟩
  intro hEq
  exact List.cons_ne_self _ _ (congrArg St.outstanding hEq)

/-- Witness for C6 at the sample store: the refused login for unverified
account 1 records outstanding identifier 10 and changes the store. -/
theorem c6_mint_before_check_witness :
    (login "a@x.com" "pw" 0 sampleSt).1 =
      Outcome.ok (errorResp 400 "NOT_VERIFIED")
    ∧ (errorResp 400 "NOT_VERIFIED").refreshTok = none
    ∧ (errorResp 400 "NOT_VERIFIED").accessTok = none
    ∧ ((login "a@x.com" "pw" 0 sampleSt).2).outstanding =
        sampleSt.nextJti :: sampleSt.outstanding
    ∧ (login "a@x.com" "pw" 0 sampleSt).2 ≠ sampleSt :=
  c6_mint_before_check sampleSt "a@x.com" "pw"
    ⟨1, "a@x.com", hashPw "pw", false⟩ 0 (by decide) (by decide)

theorem reset_password_multiple (uid : Nat) (tok pw : String) (n : Nat)
    (st : St)
    (h : getToken st.resetTokens (fun t => t.userId == uid && t.token == tok) =
      .multiple) :
    reset_password (some uid) tok pw n st =
      (.ok (errorResp 500 "INTERNAL_SERVER_ERROR"), st) := by
  simp only [reset_password]
  rw [h]

/-- C7 counterexample: logout with an invalid (malformed) supplied refresh
token answers the INVALID_REFRESH_TOKEN error code, which is not the
INVALID_TOKEN error the claim names. -/
theorem c7_logout_error_code_cex :
    (logout 1 (some Wire.malformed) none 0 sampleSt).1 =
      Outcome.ok (errorResp 400 "INVALID_REFRESH_TOKEN")
    ∧ errorResp 400 "INVALID_REFRESH_TOKEN" ≠ errorResp 400 "INVALID_TOKEN" :=
  ⟨rfl, by decide⟩

/-- C7 amended: logout blacklists exactly the supplied or derived
credentials — a valid explicit refresh token, a valid explicit access
token, both when both are supplied, and both members of a freshly issued
pair when neither is supplied — answering 200 in every non-error case;
an invalid supplied token yields the INVALID_REFRESH_TOKEN error (the
TokenError handler reuses refresh_token's error code, not INVALID_TOKEN). -/
theorem c7_logout_behaviour :
    (∀ (uid : Nat) (st : St) (n : Nat) (t : BearerToken),
        t.kind = TokenKind.refresh → n < t.expiry →
        ¬ t.jti ∈ st.blacklisted →
        logout uid (some (Wire.tok t)) none n st =
          (Outcome.ok (emptyResp 200), blacklistJti t.jti st)
        ∧ t.jti ∈ (blacklistJti t.jti st).blacklisted)
    ∧ (∀ (uid : Nat) (st : St) (n : Nat) (t : BearerToken),
        t.kind = TokenKind.access → n < t.expiry →
        logout uid none (some (Wire.tok t)) n st =
          (Outcome.ok (emptyResp 200), blacklistJti t.jti st))
    ∧ (∀ (uid : Nat) (st : St) (n : Nat) (tr ta : BearerToken),
        tr.kind = TokenKind.refresh → n < tr.expiry →
        ¬ tr.jti ∈ st.blacklisted →
        ta.kind = TokenKind.access → n < ta.expiry →
        logout uid (some (Wire.tok tr)) (some (Wire.tok ta)) n st =
          (Outcome.ok (emptyResp 200),
           blacklistJti ta.jti (blacklistJti tr.jti st)))
    ∧ (∀ (uid : Nat) (st : St) (n : Nat),
        (logout uid none none n st).1 = Outcome.ok (emptyResp 200)
        ∧ ((logout uid none none n st).2).blacklisted =
            st.nextJti :: (st.nextJti + 1) :: st.blacklisted)
    ∧ (∀ (uid : Nat) (st : St) (n : Nat) (aq : Option Wire),
        logout uid (some Wire.malformed) aq n st =
          (Outcome.ok (errorResp 400 "INVALID_REFRESH_TOKEN"), st)) := by
  refine ⟨?_, ?_, ?_, ?_, ?_⟩
  · intro uid st n t hk he hb
    constructor
    · simp only [logout]
      rw [checkRefresh_valid t n st hk he hb]
    · exact List.mem_cons_self _ _
  · intro uid st n t hk he
    simp only [logout]
    rw [checkAccess_valid t n hk he]
  · intro uid st n tr ta hrk hre hrb hak hae
    simp only [logout]
    rw [checkRefresh_valid tr n st hrk hre hrb, checkAccess_valid ta n hak hae]
  · intro uid st n
    exact ⟨rfl, rfl⟩
  · intro uid st n aq
    cases aq with
    | none => rfl
    | some wa => rfl

/-- Witness for the amended C7 at the sample store: a valid refresh token
(identifier 20) and a valid access token (identifier 21) are blacklisted
when supplied, a bare logout blacklists both members of the fresh pair
(identifiers 10 and 11), and a malformed token is refused. -/
theorem c7_logout_behaviour_witness :
    (logout 1 (some (Wire.tok ⟨20, 1, TokenKind.refresh, 999⟩)) none 0
        sampleSt =
      (Outcome.ok (emptyResp 200), blacklistJti 20 sampleSt)
      ∧ 20 ∈ (blacklistJti 20 sampleSt).blacklisted)
    ∧ logout 1 none (some (Wire.tok ⟨21, 1, TokenKind.access, 999⟩)) 0
        sampleSt =
      (Outcome.ok (emptyResp 200), blacklistJti 21 sampleSt)
    ∧ logout 1 (some (Wire.tok ⟨20, 1, TokenKind.refresh, 999⟩))
        (some (Wire.tok ⟨21, 1, TokenKind.access, 999⟩)) 0 sampleSt =
      (Outcome.ok (emptyResp 200),
       blacklistJti 21 (blacklistJti 20 sampleSt))
    ∧ ((logout 1 none none 0 sampleSt).1 = Outcome.ok (emptyResp 200)
        ∧ ((logout 1 none none 0 sampleSt).2).blacklisted =
          sampleSt.nextJti :: (sampleSt.nextJti + 1) :: sampleSt.blacklisted)
    ∧ logout 1 (some Wire.malformed) none 0 sampleSt =
      (Outcome.ok (errorResp 400 "INVALID_REFRESH_TOKEN"), sampleSt) :=
  ⟨c7_logout_behaviour.1 1 sampleSt 0 ⟨20, 1, TokenKind.refresh, 999⟩
      (by decide) (by decide) (by decide),
   c7_logout_behaviour.2.1 1 sampleSt 0 ⟨21, 1, TokenKind.access, 999⟩
      (by decide) (by decide),
   c7_logout_behaviour.2.2.1 1 sampleSt 0 ⟨20, 1, TokenKind.refresh, 999⟩
      ⟨21, 1, TokenKind.access, 999⟩ (by decide) (by decide) (by decide)
      (by decide) (by decide),
   c7_logout_behaviour.2.2.2.1 1 sampleSt 0,
   c7_logout_behaviour.2.2.2.2 1 sampleSt 0 none⟩

/-- C8 counterexample: a PasswordReset token created at minute 100 and
presented at minute 2000 (past 24 hours) is refused with error code
INVALID_TOKEN, not the EXPIRED_TOKEN kind the claim names. -/
theorem c8_expired_code_cex :
    (reset_password (some 1) "prt1" "q" 2000 sampleSt).1 =
      Outcome.ok (errorResp 400 "INVALID_TOKEN")
    ∧ errorResp 400 "INVALID_TOKEN" ≠ errorResp 400 "EXPIRED_TOKEN" :=
  ⟨by decide, by decide⟩

/-- C8 amended: reset_password refuses an expired PasswordReset token with
the INVALID_TOKEN error code (only the message mentions expiry), and when
no matching token exists the DoesNotExist handler references the unbound
name `e` and the request escapes as an unhandled NameError instead of a
clean INVALID_TOKEN response. -/
theorem c8_reset_error_codes :
    (∀ (st : St) (uid : Nat) (tok pw : String) (prt : OneTimeToken)
        (n : Nat),
        getToken st.resetTokens (fun t => t.userId == uid && t.token == tok) =
          GetResult.found prt →
        prt.createdAt + otpTtl ≤ n →
        (reset_password (some uid) tok pw n st).1 =
          Outcome.ok (errorResp 400 "INVALID_TOKEN"))
    ∧ (∀ (st : St) (uid : Nat) (tok pw : String) (n : Nat),
        getToken st.resetTokens (fun t => t.userId == uid && t.token == tok) =
          GetResult.notFound →
        reset_password (some uid) tok pw n st =
          (Outcome.unhandled "NameError", st)) := by
  constructor
  · intro st uid tok pw prt n hfind hexp
    rw [reset_password_expired uid tok pw n st prt hfind hexp]
  · intro st uid tok pw n hfind
    exact reset_password_notFound uid tok pw n st hfind

/-- Witness for the amended C8 at the sample store: the expired token at
minute 2000 yields INVALID_TOKEN, and an unknown token string raises
NameError. -/
theorem c8_reset_error_codes_witness :
    (reset_password (some 1) "prt1" "q" 2000 sampleSt).1 =
      Outcome.ok (errorResp 400 "INVALID_TOKEN")
    ∧ reset_password (some 1) "zzz" "q" 200 sampleSt =
      (Outcome.unhandled "NameError", sampleSt) :=
  ⟨c8_reset_error_codes.1 sampleSt 1 "prt1" "q" ⟨"prt1", 1, 100⟩ 2000
      (by decide) (by decide),
   c8_reset_error_codes.2 sampleSt 1 "zzz" "q" 200 (by decide)⟩

/-- C10 counterexample: an unauthenticated reset_password call presenting
a valid, unexpired token fails with VALIDATION_ERROR (the anonymous-user
foreign-key lookup raises TypeError, caught at views.py line 469), not
with the INVALID_TOKEN error the claim names. -/
theorem c10_unauthenticated_cex :
    (reset_password none "prt1" "q" 200 sampleSt).1 =
      Outcome.ok (errorResp 400 "VALIDATION_ERROR")
    ∧ errorResp 400 "VALIDATION_ERROR" ≠ errorResp 400 "INVALID_TOKEN" :=
  ⟨rfl, by decide⟩

/-- C10 amended: reset_password can succeed (204) only when the caller is
authenticated as the account owning the matching PasswordReset token; an
unauthenticated call fails with VALIDATION_ERROR, and a token owned by a
different account (no row matches the caller) reaches the DoesNotExist
handler, which raises an unhandled NameError rather than INVALID_TOKEN. -/
theorem c10_owner_scoped :
    (∀ (auth : Option Nat) (tok pw : String) (n : Nat) (st : St) (r : Resp)
        (st1 : St),
        reset_password auth tok pw n st = (Outcome.ok r, st1) →
        r.httpStatus = 204 →
        ∃ uid prt, auth = some uid ∧
          getToken st.resetTokens
            (fun t => t.userId == uid && t.token == tok) =
            GetResult.found prt ∧
          prt ∈ st.resetTokens ∧ prt.userId = uid ∧ prt.token = tok)
    ∧ (∀ (tok pw : String) (n : Nat) (st : St),
        reset_password none tok pw n st =
          (Outcome.ok (errorResp 400 "VALIDATION_ERROR"), st))
    ∧ (∀ (uid : Nat) (tok pw : String) (n : Nat) (st : St),
        getToken st.resetTokens (fun t => t.userId == uid && t.token == tok) =
          GetResult.notFound →
        reset_password (some uid) tok pw n st =
          (Outcome.unhandled "NameError", st)) := by
  refine ⟨?_, ?_, ?_⟩
  · intro auth tok pw n st r st1 hrun h204
    cases auth with
    | none =>
      have h1 : Outcome.ok (errorResp 400 "VALIDATION_ERROR") =
          Outcome.ok r := congrArg Prod.fst hrun
      injection h1 with h1
      rw [← h1] at h204
      exact absurd h204 (by decide)
    | some uid =>
      cases hg : getToken st.resetTokens
          (fun t => t.userId == uid && t.token == tok) with
      | notFound =>
        rw [reset_password_notFound uid tok pw n st hg] at hrun
        exact absurd (congrArg Prod.fst hrun) (by simp)
      | multiple =>
        rw [reset_password_multiple uid tok pw n st hg] at hrun
        have h1 : Outcome.ok (errorResp 500 "INTERNAL_SERVER_ERROR") =
            Outcome.ok r := congrArg Prod.fst hrun
        injection h1 with h1
        rw [← h1] at h204
        exact absurd h204 (by decide)
      | found prt =>
        by_cases hlt : n < prt.createdAt + otpTtl
        · obtain ⟨hmem, hp⟩ := getToken_found_mem _ _ _ hg
          simp only [Bool.and_eq_true, beq_iff_eq] at hp
          exact ⟨uid, prt, rfl, hg, hmem, hp.1, hp.2⟩
        · rw [reset_password_expired uid tok pw n st prt hg (by omega)]
            at hrun
          have h1 : Outcome.ok (errorResp 400 "INVALID_TOKEN") =
              Outcome.ok r := congrArg Prod.fst hrun
          injection h1 with h1
          rw [← h1] at h204
          exact absurd h204 (by decide)
  · intro tok pw n st
    rfl
  · intro uid tok pw n st hg
    exact reset_password_notFound uid tok pw n st hg

/-- Witness for the amended C10 at the sample store: the successful call
by owner 1 is traced back to the owning token row, the unauthenticated
call fails with VALIDATION_ERROR, and user 2 presenting user 1's token
raises NameError. -/
theorem c10_owner_scoped_witness :
    (∃ uid prt, (some 1 : Option Nat) = some uid ∧
        getToken sampleSt.resetTokens
          (fun t => t.userId == uid && t.token == "prt1") =
          GetResult.found prt ∧
        prt ∈ sampleSt.resetTokens ∧ prt.userId = uid ∧ prt.token = "prt1")
    ∧ reset_password none "prt1" "q" 200 sampleSt =
        (Outcome.ok (errorResp 400 "VALIDATION_ERROR"), sampleSt)
    ∧ reset_password (some 2) "prt1" "q" 200 sampleSt =
        (Outcome.unhandled "NameError", sampleSt) :=
  ⟨c10_owner_scoped.1 (some 1) "prt1" "q" 200 sampleSt (emptyResp 204)
      ((reset_password (some 1) "prt1" "q" 200 sampleSt).2) (by decide)
      (by decide),
   c10_owner_scoped.2.1 "prt1" "q" 200 sampleSt,
   c10_owner_scoped.2.2 2 "prt1" "q" 200 sampleSt (by decide)⟩

end CMP
